import Mathlib

/-!
Verification of the `test-strands` repository (`src/main.py`, `src/server.py`)
against its natural-language specification.

The Python code is shallowly embedded: Python values that may or may not be
strings become the inductive `PyVal`; a Python call that either returns or
raises becomes `PyResult`; the FastAPI handlers become pure functions over an
explicit server state; the external `strands` agent library (an opaque
dependency per the spec) is a parameter (an oracle function) of each handler.
-/

namespace TestStrands

/-- Result of a Python call: either a returned value, or a raised exception
carried as its `str(e)` message.  (Quote characters that appear inside the
original CPython messages are written with the `\x27` escape.) -/
inductive PyResult (α : Type) where
  | ok : α → PyResult α
  | exn : String → PyResult α
deriving DecidableEq, Repr

/-- Whether a `PyResult` is a raised exception. -/
def PyResult.isExn {α : Type} : PyResult α → Bool
  | .ok _ => false
  | .exn _ => true

/-- A dynamically-typed Python value, as far as `letter_counter` can observe
it: a string (list of characters), or one of several non-string values. -/
inductive PyVal where
  | str : List Char → PyVal
  | int : Int → PyVal
  | boolean : Bool → PyVal
  | pynone : PyVal
deriving DecidableEq, Repr

/-- `isinstance(v, str)`. -/
def PyVal.isStr : PyVal → Bool
  | .str _ => true
  | _ => false

/-- Python `str.lower` on a single character, restricted to ASCII: maps
`A`–`Z` to `a`–`z` and leaves every other ASCII character unchanged.
(For non-ASCII characters CPython performs Unicode case mapping, which this
embedding does not model; the theorems below therefore restrict to ASCII.) -/
def pyToLower (c : Char) : Char :=
  if 'A' ≤ c ∧ c ≤ 'Z' then Char.ofNat (c.toNat + 32) else c

/-- Python `str.lower` on a whole (ASCII) string. -/
def strLower (s : List Char) : List Char := s.map pyToLower

/-- Message of the `ValueError` raised by `letter_counter`
(source: `main.py` line 32). -/
def valueErrorMsg : String :=
  "The \x27letter\x27 parameter must be a single character"

/-- Embedding of `letter_counter` (`src/main.py` lines 16–34):

* if either argument is not a string, return `0`;
* then, if `letter` is not exactly one character, raise `ValueError`;
* otherwise return `word.lower().count(letter.lower())` — for a
  one-character needle, Python `str.count` is the number of positions of
  the string holding that character, here `List.count`. -/
def letter_counter (word letter : PyVal) : PyResult Nat :=
  match word, letter with
  | PyVal.str w, PyVal.str l =>
      match l with
      | [c] => PyResult.ok ((strLower w).count (pyToLower c))
      | _ => PyResult.exn valueErrorMsg
  | _, _ => PyResult.ok 0

/-- The spec's notion of "case-insensitive count of `letter` in `word`":
the number of positions of `word` whose character equals the letter up to
lower-casing. -/
def caseInsensitiveCount (word : List Char) (c : Char) : Nat :=
  (word.filter (fun x => pyToLower x = pyToLower c)).length

/-- Counting an element in a mapped list is counting the preimages. -/
theorem count_map_eq_filter_length (f : Char → Char) (a : Char) (l : List Char) :
    (l.map f).count a = (l.filter (fun x => f x = a)).length := by
  induction l with
  | nil => rfl
  | cons x xs ih =>
      by_cases h : f x = a
      · simp [List.count_cons, List.filter_cons, h, ih]
      · simp [List.count_cons, List.filter_cons, h, ih]

/-- C1: for every ASCII `word` and single-character `letter`,
`letter_counter` returns the case-insensitive count of the letter in the
word, obtained by lower-casing both inputs and counting occurrences; in
particular `letter_counter "strawberry" "r" = 3`. -/
theorem letter_counter_ascii_correct (word : List Char) (c : Char)
    (hw : ∀ ch ∈ word, ch.toNat < 128) (hc : c.toNat < 128) :
    letter_counter (PyVal.str word) (PyVal.str [c]) =
      PyResult.ok (caseInsensitiveCount word c) ∧
    letter_counter (PyVal.str "strawberry".toList) (PyVal.str ['r']) =
      PyResult.ok 3 := by
  refine ⟨?_, by decide⟩
  show PyResult.ok ((strLower word).count (pyToLower c)) = _
  rw [strLower, count_map_eq_filter_length]
  rfl

/-- Witness for C1 at the spec's own example. -/
theorem letter_counter_ascii_correct_witness :
    letter_counter (PyVal.str "strawberry".toList) (PyVal.str ['r']) =
      PyResult.ok (caseInsensitiveCount "strawberry".toList 'r') :=
  (letter_counter_ascii_correct "strawberry".toList 'r'
    (by decide) (by decide)).1

/-- C3 counterexample: with a non-string `word` and the empty string as
`letter` (length 0 ≠ 1), `letter_counter` returns the count `0` instead of
raising, so the claim as stated (quantifying `word` over all values) fails. -/
theorem letter_counter_bad_length_counterexample :
    letter_counter (PyVal.int 42) (PyVal.str []) = PyResult.ok 0 ∧
    (letter_counter (PyVal.int 42) (PyVal.str [])).isExn = false := by
  exact ⟨rfl, rfl⟩

/-- C3 (amended): for every pair of *string* arguments where `letter` has
length ≠ 1, `letter_counter` raises the `ValueError`. -/
theorem letter_counter_raises_on_bad_length (w l : List Char)
    (h : l.length ≠ 1) :
    letter_counter (PyVal.str w) (PyVal.str l) = PyResult.exn valueErrorMsg := by
  match l with
  | [] => rfl
  | [c] => exact absurd rfl h
  | c1 :: c2 :: t => rfl

/-- Witness for the amended C3. -/
theorem letter_counter_raises_on_bad_length_witness :
    letter_counter (PyVal.str ['a', 'b']) (PyVal.str []) =
      PyResult.exn valueErrorMsg :=
  letter_counter_raises_on_bad_length ['a', 'b'] [] (by decide)

/-- C4: whenever at least one argument is not a string, `letter_counter`
returns `0` and does not raise. -/
theorem letter_counter_nonstring_returns_zero (word letter : PyVal)
    (h : word.isStr = false ∨ letter.isStr = false) :
    letter_counter word letter = PyResult.ok 0 := by
  cases word <;> cases letter <;> simp_all [PyVal.isStr, letter_counter]

/-- Witness for C4. -/
theorem letter_counter_nonstring_returns_zero_witness :
    letter_counter PyVal.pynone (PyVal.str ['r']) = PyResult.ok 0 :=
  letter_counter_nonstring_returns_zero PyVal.pynone (PyVal.str ['r'])
    (Or.inl rfl)

/-- C10: the non-textual check precedes the single-character check — a
non-string `letter` always yields `0` (never the `ValueError`), and an
exception can only ever be raised when both arguments are strings. -/
theorem letter_counter_nonstring_precedence :
    (∀ word letter : PyVal, letter.isStr = false →
        letter_counter word letter = PyResult.ok 0) ∧
    (∀ word letter : PyVal, ∀ m : String,
        letter_counter word letter = PyResult.exn m →
        word.isStr = true ∧ letter.isStr = true) := by
  constructor
  · intro word letter h
    cases word <;> cases letter <;> simp_all [PyVal.isStr, letter_counter]
  · intro word letter m h
    cases word <;> cases letter <;> simp_all [PyVal.isStr, letter_counter]

/-- Witness for C10: a non-string `letter` of "length" unlike 1 still gives
`0`, and a genuine raise shows both arguments were strings. -/
theorem letter_counter_nonstring_precedence_witness :
    letter_counter (PyVal.str ['a']) (PyVal.int 3) = PyResult.ok 0 ∧
    ((PyVal.str ['a']).isStr = true ∧ (PyVal.str []).isStr = true) :=
  ⟨letter_counter_nonstring_precedence.1 (PyVal.str ['a']) (PyVal.int 3) rfl,
   letter_counter_nonstring_precedence.2 (PyVal.str ['a']) (PyVal.str [])
     valueErrorMsg rfl⟩

/-!
### Embedding of `src/server.py`

Object identity is modelled by numbering each object allocated by the
module (`MockAgent()` and the per-request `TempAgent`): the module-level
variable `agent_instance` holds the number of the global `MockAgent`, if one
has been constructed, and `nextId` is the allocation counter.  `MockAgent`
construction is assumed to succeed (the claims presuppose a working agent);
its `__init__` always sets `bedrock_model`, so the `hasattr` test in
`get_agent_instance` always holds.
-/

/-- The module-level mutable state of `server.py`. -/
structure ServerState where
  agent_instance : Option Nat
  nextId : Nat
deriving DecidableEq, Repr

/-- State at import time: `agent_instance = None` (`server.py` line 16). -/
def initState : ServerState := ⟨none, 0⟩

/-- What `get_agent_instance` returns: the global `MockAgent`, or a fresh
request-scoped `TempAgent` (which wraps a fresh Bedrock-backed `Agent` and
defines only the attribute `.agent`). -/
inductive AgentRef where
  | mock : Nat → AgentRef
  | temp : Nat → AgentRef
deriving DecidableEq, Repr

/-- First half of `get_agent_instance`: `if agent_instance is None:
agent_instance = MockAgent()` — returns the global's number and the state
after the lazy initialization. -/
def ensureGlobal (s : ServerState) : Nat × ServerState :=
  match s.agent_instance with
  | some i => (i, s)
  | none => (s.nextId, ⟨some s.nextId, s.nextId + 1⟩)

/-- Embedding of `get_agent_instance` (`src/server.py` lines 22–42): lazily
create the global `MockAgent`; then either return it, or — when
`use_bedrock` and the global has a `bedrock_model` attribute, which it
always does — build a fresh `TempAgent` for this request and return that,
leaving the global in place. -/
def get_agent_instance (s : ServerState) (use_bedrock : Bool) :
    AgentRef × ServerState :=
  let g := ensureGlobal s
  if use_bedrock then
    (AgentRef.temp g.2.nextId, ⟨g.2.agent_instance, g.2.nextId + 1⟩)
  else
    (AgentRef.mock g.1, g.2)

/-- Running a sequence of `get_agent_instance` calls against the module
state, recording for each call its `use_bedrock` flag and the agent it
returned. -/
def runCalls : List Bool → ServerState → List (Bool × AgentRef) × ServerState
  | [], s => ([], s)
  | b :: rest, s =>
      let step := get_agent_instance s b
      let tail := runCalls rest step.2
      ((b, step.1) :: tail.1, tail.2)

/-- Unfolding equation for `runCalls` on a first call. -/
theorem runCalls_cons (b : Bool) (rest : List Bool) (s : ServerState) :
    runCalls (b :: rest) s =
      ((b, (get_agent_instance s b).1) ::
          (runCalls rest (get_agent_instance s b).2).1,
        (runCalls rest (get_agent_instance s b).2).2) := rfl

/-- With the global already set, a non-Bedrock call returns it and leaves
the state untouched. -/
theorem gai_false_of_global (s : ServerState) (g : Nat)
    (h : s.agent_instance = some g) :
    get_agent_instance s false = (AgentRef.mock g, s) := by
  simp [get_agent_instance, ensureGlobal, h]

/-- With the global already set, a Bedrock call allocates a fresh
`TempAgent` and only advances the allocation counter. -/
theorem gai_true_of_global (s : ServerState) (g : Nat)
    (h : s.agent_instance = some g) :
    get_agent_instance s true =
      (AgentRef.temp s.nextId, ⟨some g, s.nextId + 1⟩) := by
  simp [get_agent_instance, ensureGlobal, h]

/-- Distinctness relation used below: two recorded calls never return
`TempAgent`s with the same identity. -/
def distinctTemps (p q : Bool × AgentRef) : Prop :=
  ∀ i j, p.2 = AgentRef.temp i → q.2 = AgentRef.temp j → i ≠ j

/-- Invariant run: once the global `MockAgent` `g` exists (and `g` is an
already-allocated identity), every further sequence of calls keeps the
global equal to `g`, returns `g` itself on every non-Bedrock call, returns
a fresh, newly allocated `TempAgent` on every Bedrock call, and all those
`TempAgent`s are pairwise distinct. -/
theorem runCalls_global (flags : List Bool) (s : ServerState) (g : Nat)
    (hg : s.agent_instance = some g) (hlt : g < s.nextId) :
    (runCalls flags s).2.agent_instance = some g ∧
    s.nextId ≤ (runCalls flags s).2.nextId ∧
    (∀ p ∈ (runCalls flags s).1,
      (p.1 = false → p.2 = AgentRef.mock g) ∧
      (p.1 = true → ∃ t, p.2 = AgentRef.temp t ∧ g < t ∧ s.nextId ≤ t)) ∧
    List.Pairwise distinctTemps (runCalls flags s).1 := by
  induction flags generalizing s with
  | nil =>
      exact ⟨hg, le_refl _, fun p hp => absurd hp (List.not_mem_nil p),
        List.Pairwise.nil⟩
  | cons b rest ih =>
      cases b with
      | false =>
          have hstep := gai_false_of_global s g hg
          have hIH := ih s hg hlt
          rw [runCalls_cons, hstep]
          refine ⟨hIH.1, hIH.2.1, ?_, ?_⟩
          · intro p hp
            rcases List.mem_cons.mp hp with rfl | hp'
            · exact ⟨fun _ => rfl, fun h => absurd h (by simp)⟩
            · exact hIH.2.2.1 p hp'
          · refine List.Pairwise.cons ?_ hIH.2.2.2
            intro q _ i j hpi _
            exact absurd hpi (by simp)
      | true =>
          have hstep := gai_true_of_global s g hg
          have hIH := ih ⟨some g, s.nextId + 1⟩ rfl (Nat.lt_succ_of_lt hlt)
          have hnext : (⟨some g, s.nextId + 1⟩ : ServerState).nextId =
              s.nextId + 1 := rfl
          rw [runCalls_cons, hstep]
          refine ⟨hIH.1, ?_, ?_, ?_⟩
          · have h2 := hIH.2.1
            rw [hnext] at h2
            exact le_trans (Nat.le_succ _) h2
          · intro p hp
            rcases List.mem_cons.mp hp with rfl | hp'
            · exact ⟨fun h => absurd h (by simp),
                fun _ => ⟨s.nextId, rfl, hlt, le_refl _⟩⟩
            · refine ⟨(hIH.2.2.1 p hp').1, fun h => ?_⟩
              obtain ⟨t, ht, hgt, hle⟩ := (hIH.2.2.1 p hp').2 h
              rw [hnext] at hle
              exact ⟨t, ht, hgt, le_trans (Nat.le_succ _) hle⟩
          · refine List.Pairwise.cons ?_ hIH.2.2.2
            intro q hq i j hpi hqj
            have hi : s.nextId = i := by injection hpi
            cases hb : q.1 with
            | false =>
                have hqm := (hIH.2.2.1 q hq).1 hb
                rw [hqm] at hqj
                exact absurd hqj (by simp)
            | true =>
                obtain ⟨t, ht, _, hle⟩ := (hIH.2.2.1 q hq).2 hb
                rw [hnext] at hle
                rw [ht] at hqj
                have hj : t = j := by injection hqj
                omega

/-- C9: across every sequence of `get_agent_instance` calls starting at
module load, the first call lazily creates the single global `MockAgent`
`g`; every call with `use_bedrock = false` (first or later) returns that
same `g` and the global still holds `g` at the end, while every call with
`use_bedrock = true` returns a request-scoped `TempAgent` distinct from
`g`, these `TempAgent`s being pairwise distinct (a fresh one per call). -/
theorem agent_instance_singleton (b : Bool) (rest : List Bool) :
    ∃ g, (get_agent_instance initState b).2.agent_instance = some g ∧
      (runCalls (b :: rest) initState).2.agent_instance = some g ∧
      (∀ p ∈ (runCalls (b :: rest) initState).1,
        (p.1 = false → p.2 = AgentRef.mock g) ∧
        (p.1 = true → ∃ t, p.2 = AgentRef.temp t ∧ t ≠ g)) ∧
      List.Pairwise distinctTemps (runCalls (b :: rest) initState).1 := by
  refine ⟨0, ?_⟩
  cases b with
  | false =>
      have hstep : get_agent_instance initState false =
          (AgentRef.mock 0, ⟨some 0, 1⟩) := rfl
      have hIH := runCalls_global rest ⟨some 0, 1⟩ 0 rfl (by decide)
      rw [runCalls_cons, hstep]
      refine ⟨rfl, hIH.1, ?_, ?_⟩
      · intro p hp
        rcases List.mem_cons.mp hp with rfl | hp'
        · exact ⟨fun _ => rfl, fun h => absurd h (by simp)⟩
        · refine ⟨(hIH.2.2.1 p hp').1, fun h => ?_⟩
          obtain ⟨t, ht, hgt, _⟩ := (hIH.2.2.1 p hp').2 h
          exact ⟨t, ht, by omega⟩
      · refine List.Pairwise.cons ?_ hIH.2.2.2
        intro q _ i j hpi _
        exact absurd hpi (by simp)
  | true =>
      have hstep : get_agent_instance initState true =
          (AgentRef.temp 1, ⟨some 0, 2⟩) := rfl
      have hIH := runCalls_global rest ⟨some 0, 2⟩ 0 rfl (by decide)
      have hnext : (⟨some 0, 2⟩ : ServerState).nextId = 2 := rfl
      rw [runCalls_cons, hstep]
      refine ⟨rfl, hIH.1, ?_, ?_⟩
      · intro p hp
        rcases List.mem_cons.mp hp with rfl | hp'
        · exact ⟨fun h => absurd h (by simp), fun _ => ⟨1, rfl, by decide⟩⟩
        · refine ⟨(hIH.2.2.1 p hp').1, fun h => ?_⟩
          obtain ⟨t, ht, hgt, _⟩ := (hIH.2.2.1 p hp').2 h
          exact ⟨t, ht, by omega⟩
      · refine List.Pairwise.cons ?_ hIH.2.2.2
        intro q hq i j hpi hqj
        have hi : (1 : Nat) = i := by injection hpi
        cases hb : q.1 with
        | false =>
            have hqm := (hIH.2.2.1 q hq).1 hb
            rw [hqm] at hqj
            exact absurd hqj (by simp)
        | true =>
            obtain ⟨t, ht, _, hle⟩ := (hIH.2.2.1 q hq).2 hb
            rw [hnext] at hle
            rw [ht] at hqj
            have hj : t = j := by injection hqj
            omega

/-- Witness for C9: on the concrete call sequence `[false, true]` the
global is the `MockAgent` numbered 0, the first recorded call did return
it, and the claim's per-call clause applies to that concrete member. -/
theorem agent_instance_singleton_witness :
    (false, AgentRef.mock 0) ∈ (runCalls [false, true] initState).1 ∧
    (false, AgentRef.mock 0).2 = AgentRef.mock 0 ∧
    (runCalls [false, true] initState).2.agent_instance = some 0 := by
  obtain ⟨g, h1, h2, h3, _⟩ := agent_instance_singleton false [true]
  have hg : (0 : Nat) = g := by
    have h0 : (get_agent_instance initState false).2.agent_instance =
        some (0 : Nat) := rfl
    rw [h0] at h1
    injection h1
  subst hg
  have hmem : (false, AgentRef.mock 0) ∈
      (runCalls [false, true] initState).1 := by decide
  exact ⟨hmem, (h3 _ hmem).1 rfl, h2⟩

/-- Request body `PromptRequest` (`src/server.py` lines 18–20). -/
structure PromptRequest where
  prompt : String
  use_bedrock : Bool
deriving DecidableEq, Repr

/-- Observable shape of the external agent's response object:
`message` is `some m` when the object has a `.message` attribute, and `m`
is `some c` when that mapping contains the key `"content"` with value `c`;
`asStr` is `str(response)`. -/
structure AgentResponse where
  message : Option (Option String)
  asStr : String
deriving DecidableEq, Repr

/-- Content extraction in `chat_response` (`src/server.py` lines 93–96). -/
def extractContent (r : AgentResponse) : String :=
  match r.message with
  | some (some c) => c
  | some none => r.asStr
  | none => r.asStr

/-- Outcome of the `/chat` handler: a JSON body
`{response, model, metrics}`, or `HTTPException(status_code, detail)`. -/
inductive ChatResult where
  | ok : String → String → String → ChatResult
  | httpError : Nat → String → ChatResult
deriving DecidableEq, Repr

/-- Message of the `AttributeError` raised by `agent.query` when the agent
is the `TempAgent`, which defines no `query` method. -/
def tempAgentNoQueryMsg : String :=
  "\x27TempAgent\x27 object has no attribute \x27query\x27"

/-- Message of the `AttributeError` raised by the attribute lookup
`agent.condense_metrics`: `MockAgent` defines no such method anywhere in
the repository. -/
def noCondenseMetricsMsg : String :=
  "\x27MockAgent\x27 object has no attribute \x27condense_metrics\x27"

/-- Embedding of `chat_response` (`src/server.py` lines 84–110).  The
external call made by `MockAgent.query` is the oracle parameter `query`
(`main.py` delegates to `self.agent`, an opaque library object).  Every
exception inside the `try` block becomes `HTTPException(500, str(e))`:

* with a `TempAgent`, the lookup `agent.query` raises `AttributeError`;
* a raise inside the external call propagates out of `MockAgent.query`;
* otherwise Python evaluates the callee `agent.condense_metrics` before
  its argument, and that lookup raises `AttributeError` — so the
  `return` statement is unreachable. -/
def chat_response (query : String → PyResult AgentResponse)
    (s : ServerState) (req : PromptRequest) : ChatResult × ServerState :=
  let a := get_agent_instance s req.use_bedrock
  match a.1 with
  | AgentRef.temp _ => (ChatResult.httpError 500 tempAgentNoQueryMsg, a.2)
  | AgentRef.mock _ =>
      match query req.prompt with
      | PyResult.exn e => (ChatResult.httpError 500 e, a.2)
      | PyResult.ok response =>
          let _content := extractContent response
          (ChatResult.httpError 500 noCondenseMetricsMsg, a.2)

/-- The final result object of a stream, as `generate` observes it:
whether it has a `.metrics` attribute. -/
structure ResultObj where
  hasMetrics : Bool
deriving DecidableEq, Repr

/-- One event yielded by `agent.stream_async`: `data` is `some d` when the
dict has a `"data"` key, `result` is `some r` when it has a `"result"`
key. -/
structure StreamEvent where
  data : Option String
  result : Option ResultObj
deriving DecidableEq, Repr

/-- Behaviour of the external async event stream: it yields `events` and
then either finishes normally (`exn = none`) or raises (`exn = some e`,
the message) — events after a raise do not exist. -/
structure StreamSource where
  events : List StreamEvent
  exn : Option String
deriving DecidableEq, Repr

/-- `final_result` after the `async for` loop: the `"result"` value of the
last event carrying one (`src/server.py` lines 61–63). -/
def finalResult (evs : List StreamEvent) : Option ResultObj :=
  evs.foldl (fun acc e =>
    match e.result with
    | some r => some r
    | none => acc) none

/-- An SSE data line as formatted by `generate` (`src/server.py` line 59). -/
def sseData (d : String) : String := "data: " ++ d ++ "\n\n"

/-- The SSE lines produced by the loop body: one `data:` line per event
carrying a `"data"` key. -/
def dataLines (evs : List StreamEvent) : List String :=
  evs.filterMap (fun e => e.data.map sseData)

/-- Embedding of the generator `generate` inside `stream_response`
(`src/server.py` lines 47–72), on the `use_bedrock = false` path (the
agent is the global `MockAgent`).  After forwarding the data chunks:

* an exception from the event iterator is caught by the `except` clause
  and yielded in-band as a plain `Error: ...` line;
* otherwise, when a final result with a `.metrics` attribute exists, the
  lookup `agent.condense_metrics` raises `AttributeError` (evaluated
  before `final_result.metrics.get_summary()` and before `json.dumps`),
  which the same `except` clause turns into an `Error: ...` line — the
  `event: metrics` SSE event is never emitted;
* with no final result, or one without `.metrics`, the stream just ends. -/
def generate (src : StreamSource) : List String :=
  match src.exn with
  | some e => dataLines src.events ++ ["Error: " ++ e]
  | none =>
      match finalResult src.events with
      | some r =>
          if r.hasMetrics then
            dataLines src.events ++ ["Error: " ++ noCondenseMetricsMsg]
          else dataLines src.events
      | none => dataLines src.events

/-- The terminal SSE event the spec promises (`src/server.py` line 69 would
produce it if the metrics computation did not raise). -/
def sseMetricsEvent (payload : String) : String :=
  "event: metrics\ndata: " ++ payload ++ "\n\n"

/-!
### Output-capture shim (`src/main.py` lines 94–128)

The two process-wide stream variables `sys.stdout` and `sys.stderr` are the
state; a handle is either a pre-existing stream object or the `StringIO`
buffer allocated by the shim.  The wrapped call is a function of that state
(it may itself reassign the streams) returning a value or raising.
-/

/-- A value `sys.stdout` / `sys.stderr` can hold here. -/
inductive StreamHandle where
  | host : Nat → StreamHandle
  | captureBuffer : StreamHandle
deriving DecidableEq, Repr

/-- The pair (`sys.stdout`, `sys.stderr`). -/
structure SysStreams where
  stdout : StreamHandle
  stderr : StreamHandle
deriving DecidableEq, Repr

/-- Both streams pointing at the freshly allocated `StringIO` buffer. -/
def redirectedStreams : SysStreams := ⟨.captureBuffer, .captureBuffer⟩

/-- Embedding of `MockAgent._capture_output`: save the streams, point both
at the capture buffer, run the wrapped call, and in `finally` restore the
saved handles — whatever the call did to the streams and whether it
returned (`ok`) or raised (`exn`, re-raised after the restore). -/
def capture_output {α : Type} (func : SysStreams → PyResult α × SysStreams)
    (s : SysStreams) : PyResult α × SysStreams :=
  let original_stdout := s.stdout
  let original_stderr := s.stderr
  let r := func redirectedStreams
  (r.1, ⟨original_stdout, original_stderr⟩)

/-- Embedding of `MockAgent._capture_output_async`: the wrapped async
generator, run under the redirected streams, yields a list of events and
optionally ends in a raise; the `finally` block restores the saved
handles when the generator finishes or propagates the raise. -/
def capture_output_async {α : Type}
    (gen : SysStreams → (List α × Option String) × SysStreams)
    (s : SysStreams) : (List α × Option String) × SysStreams :=
  let original_stdout := s.stdout
  let original_stderr := s.stderr
  let r := gen redirectedStreams
  (r.1, ⟨original_stdout, original_stderr⟩)

/-!
### Claims about `server.py` and the capture shim
-/

/-- C2 (code bug): `/chat` never returns the promised 200 body.  Even with
a well-formed request and a successful external agent call, the handler
reaches `agent.condense_metrics`, whose lookup raises `AttributeError`, so
the endpoint answers 500; in general, for every oracle, state and request
the result is an HTTP 500 error, never `ChatResult.ok`. -/
theorem chat_response_never_200 :
    (chat_response (fun _ => PyResult.ok ⟨some (some "4"), "4"⟩) initState
        ⟨"What is 2 + 2?", false⟩).1 =
      ChatResult.httpError 500 noCondenseMetricsMsg ∧
    ∀ (query : String → PyResult AgentResponse) (s : ServerState)
      (req : PromptRequest),
      ∃ d, (chat_response query s req).1 = ChatResult.httpError 500 d := by
  constructor
  · rfl
  · intro query s req
    unfold chat_response
    cases h : (get_agent_instance s req.use_bedrock).1 with
    | temp t => exact ⟨tempAgentNoQueryMsg, by simp [h]⟩
    | mock g =>
        cases hq : query req.prompt with
        | exn e => exact ⟨e, by simp [h, hq]⟩
        | ok r => exact ⟨noCondenseMetricsMsg, by simp [h, hq]⟩

/-- `get_agent_instance` with `use_bedrock = false` returns the global
`MockAgent`. -/
theorem get_agent_instance_false (s : ServerState) :
    ∃ g, (get_agent_instance s false).1 = AgentRef.mock g := by
  exact ⟨(ensureGlobal s).1, rfl⟩

/-- C6: every exception raised while handling `/chat` is caught and
surfaced as HTTP 500 whose detail is the exception's string
representation; no other status is ever produced.  In particular an
exception `e` from the agent query itself becomes `HTTPException(500,
str(e))`. -/
theorem chat_response_catches_all (query : String → PyResult AgentResponse)
    (s : ServerState) (req : PromptRequest) :
    (∀ st d, (chat_response query s req).1 = ChatResult.httpError st d →
        st = 500) ∧
    (∀ e, req.use_bedrock = false → query req.prompt = PyResult.exn e →
        (chat_response query s req).1 = ChatResult.httpError 500 e) := by
  constructor
  · intro st d h
    unfold chat_response at h
    cases hg : (get_agent_instance s req.use_bedrock).1 with
    | temp t => simp [hg] at h; exact h.1.symm
    | mock g =>
        cases hq : query req.prompt with
        | exn e => simp [hg, hq] at h; exact h.1.symm
        | ok r => simp [hg, hq] at h; exact h.1.symm
  · intro e hb hq
    obtain ⟨g, hg⟩ := get_agent_instance_false s
    unfold chat_response
    rw [hb]
    simp [hg, hq]

/-- Witness for C6: an agent query raising `boom` yields exactly
`HTTPException(500, "boom")`. -/
theorem chat_response_catches_all_witness :
    (chat_response (fun _ => PyResult.exn "boom") initState
        ⟨"hi", false⟩).1 = ChatResult.httpError 500 "boom" :=
  (chat_response_catches_all (fun _ => PyResult.exn "boom") initState
    ⟨"hi", false⟩).2 "boom" rfl rfl

/-- C5 (code bug): on a stream consisting of one data chunk and a final
result event that does carry metrics, the generator forwards the
`data:` line but then — instead of the promised terminal
`event: metrics` SSE event — yields the in-band error line produced by
the `AttributeError` of the missing `condense_metrics` method; in
particular the output is not the data line followed by a metrics event. -/
theorem stream_emits_error_not_metrics :
    generate ⟨[⟨some "Hello", none⟩, ⟨none, some ⟨true⟩⟩], none⟩ =
      [sseData "Hello", "Error: " ++ noCondenseMetricsMsg] ∧
    generate ⟨[⟨some "Hello", none⟩, ⟨none, some ⟨true⟩⟩], none⟩ ≠
      [sseData "Hello", sseMetricsEvent "\x7b\x7d"] := by
  exact ⟨rfl, by decide⟩

/-- C7: every exception inside the `generate` generator is reported
in-band, after the data lines already sent, as a single plain-text
`Error: <message>` line: both an exception `e` raised during event
iteration and the (always-raising) metrics-serialization step. -/
theorem generate_reports_errors_in_band (src : StreamSource) :
    (∀ e, src.exn = some e →
        generate src = dataLines src.events ++ ["Error: " ++ e]) ∧
    (∀ r, src.exn = none → finalResult src.events = some r →
        r.hasMetrics = true →
        generate src =
          dataLines src.events ++ ["Error: " ++ noCondenseMetricsMsg]) := by
  constructor
  · intro e he
    unfold generate
    rw [he]
  · intro r hn hr hm
    unfold generate
    rw [hn, hr]
    simp [hm]

/-- Witness for C7: an iterator that raises `boom` after yielding nothing
produces exactly the single in-band error line. -/
theorem generate_reports_errors_in_band_witness :
    generate ⟨[], some "boom"⟩ = ["Error: boom"] := by
  have h := (generate_reports_errors_in_band ⟨[], some "boom"⟩).1 "boom" rfl
  simpa [dataLines] using h

/-- C8: the capture shims restore `sys.stdout` and `sys.stderr` exactly to
their prior values whether the wrapped call returns or raises, and the
wrapped call runs with both streams redirected to the capture buffer:
each shim equals "run the wrapped computation on the redirected streams,
keep its outcome, and hand back the original streams". -/
theorem capture_output_restores_streams :
    (∀ (α : Type) (func : SysStreams → PyResult α × SysStreams)
        (s : SysStreams),
        capture_output func s = ((func redirectedStreams).1, s)) ∧
    (∀ (α : Type) (gen : SysStreams → (List α × Option String) × SysStreams)
        (s : SysStreams),
        capture_output_async gen s = ((gen redirectedStreams).1, s)) :=
  ⟨fun _ _ _ => rfl, fun _ _ _ => rfl⟩

end TestStrands
